import Mathlib

/-!
Verification of the kernel-planckster core against its specification.

The development shallowly embeds the Python sources:
  - src/lib/core/entity/models.py          (LFN codec, domain entities)
  - src/lib/core/sdk/dto.py                (Result envelope and error factory)
  - src/lib/infrastructure/repository/sqla/sqla_research_context_repository.py
  - src/lib/infrastructure/repository/sqla/sqla_message_repository.py

Python strings are Lean String values (lists of characters); machine integers
are Int; randomness (the uuid4 draw of the LFN codec) is passed in as an
explicit seed argument; exceptions raised by the Python code are the error
channel of Except.  The JSON text produced by model_dump_json is modelled at
the level of JSON values (the Json inductive below): string escaping and
re-parsing are the concern of the external JSON library.
-/

namespace KernelPlanckster

/-! ## Characters and the LFN codec (models.py, lines 75-85) -/

/-- The fixed marker token of the LFN codec (models.py line 77). -/
def markerStr : String := "sdamarker"

/-- The marker token as a list of characters. -/
def markerL : List Char := markerStr.data

/-- The character whitelist of the codec: ASCII letters, digits,
underscore, dot, slash and hyphen, the class kept by re.sub at models.py
line 80. -/
def allowedChar (c : Char) : Bool :=
  c.isAlpha || c.isDigit || c == '_' || c == '.' || c == '/' || c == '-'

/-- Number of starting positions at which the pattern m occurs in s
(the occurrence count used to state the exactly-once marker property). -/
def countOcc (m : List Char) : List Char → Nat
  | [] => if m.isPrefixOf ([] : List Char) then 1 else 0
  | x :: t => (if m.isPrefixOf (x :: t) then 1 else 0) + countOcc m t

/-- Substring test: embeds the Python expression (marker in v). -/
def containsSub (m : List Char) : List Char → Bool
  | [] => m.isPrefixOf ([] : List Char)
  | x :: t => m.isPrefixOf (x :: t) || containsSub m t

/-- Embeds Python str.split(sep) for a one-character separator: the list of
(possibly empty) segments between occurrences of the separator. -/
def pysplit (c : Char) : List Char → List (List Char)
  | [] => [[]]
  | x :: t =>
    if x = c then [] :: pysplit c t
    else
      match pysplit c t with
      | [] => [[x]]
      | h :: rt => (x :: h) :: rt

/-- Embeds os.path.basename on a posix path: everything after the last
slash (models.py line 79). -/
def pybasename (s : List Char) : List Char :=
  (pysplit '/' s).getLastD []

/-- The sanitized basename: basename with every character outside the
whitelist removed (models.py lines 79-80). -/
def sanitized (s : List Char) : List Char :=
  (pybasename s).filter allowedChar

/-- Embeds v.split(".")[0] (models.py line 82): the text before the first
dot of the sanitized basename; the whole string when there is no dot. -/
def first_dot_segment (s : List Char) : List Char :=
  (pysplit '.' s).headD []

/-- Embeds v.split(".")[-1] (models.py line 81): the text after the last
dot; the whole string when there is no dot. -/
def last_dot_segment (s : List Char) : List Char :=
  (pysplit '.' s).getLastD []

/-- The core of the LFN relative_path validator (models.py lines 75-85), on
lists of characters.  The seed argument is the uuid4 draw rendered without
hyphens (line 83): 32 lowercase hexadecimal digits. -/
def canonicalizeList (seed : List Char) (v : List Char) : List Char :=
  if containsSub markerL v then v
  else
    let b := sanitized v
    first_dot_segment b ++ '-' :: (seed ++ '-' :: (markerL ++ '.' :: last_dot_segment b))

/-- The pydantic field validator for LFN.relative_path (models.py lines
75-85), with the entropy draw made explicit. -/
def relative_path_must_be_alphanumberic_underscores_backslashes
    (seed : String) (v : String) : String :=
  String.mk (canonicalizeList seed.data v.data)

/-- The shape of the entropy drawn at models.py line 83: str(uuid.uuid4())
with the hyphens removed is 32 lowercase hexadecimal characters. -/
def uuid_hex_seed (s : String) : Prop :=
  s.data.length = 32 ∧ ∀ c ∈ s.data, c ∈ ("0123456789abcdef").data

instance : DecidablePred uuid_hex_seed := fun s => by
  unfold uuid_hex_seed; infer_instance

/-! ## Domain entities (models.py) -/

/-- ProtocolEnum (models.py lines 28-39). -/
inductive ProtocolEnum where
  | S3
  | NAS
  | LOCAL
deriving DecidableEq

/-- The .value of each ProtocolEnum member. -/
def ProtocolEnum.value : ProtocolEnum → String
  | .S3 => "s3"
  | .NAS => "nas"
  | .LOCAL => "local"

/-- KnowledgeSourceEnum (models.py lines 10-25). -/
inductive KnowledgeSourceEnum where
  | TELEGRAM
  | TWITTER
  | AUGMENTED
  | SENTINEL
  | USER
deriving DecidableEq

/-- The .value of each KnowledgeSourceEnum member. -/
def KnowledgeSourceEnum.value : KnowledgeSourceEnum → String
  | .TELEGRAM => "telegram"
  | .TWITTER => "twitter"
  | .AUGMENTED => "augmented"
  | .SENTINEL => "sentinel"
  | .USER => "user"

/-- SourceDataStatusEnum (models.py lines 42-55). -/
inductive SourceDataStatusEnum where
  | CREATED
  | UNAVAILABLE
  | AVAILABLE
  | INCONSISTENT_DATASET
deriving DecidableEq

/-- The LFN value object (models.py lines 58-101). -/
structure LFN where
  protocol : ProtocolEnum
  tracer_id : String
  job_id : Int
  source : KnowledgeSourceEnum
  relative_path : String
deriving DecidableEq

/-- Pydantic construction of an LFN: the relative_path field validator runs
on the given value; the other fields are taken as supplied. -/
def LFN.validate (seed : String) (protocol : ProtocolEnum) (tracer_id : String)
    (job_id : Int) (source : KnowledgeSourceEnum) (relative_path : String) : LFN :=
  { protocol := protocol, tracer_id := tracer_id, job_id := job_id,
    source := source,
    relative_path :=
      relative_path_must_be_alphanumberic_underscores_backslashes seed relative_path }

/-- JSON values, modelling the document produced by model_dump_json and
consumed by model_validate_json. -/
inductive Json where
  | str : String → Json
  | num : Int → Json
  | obj : List (String × Json) → Json

/-- Field lookup in a JSON object. -/
def lookupField (fs : List (String × Json)) (k : String) : Option Json :=
  (fs.find? (fun kv => kv.fst == k)).map (fun kv => kv.snd)

/-- Read a mandatory string field of a JSON object. -/
def getStrField (fs : List (String × Json)) (k : String) : Except String String :=
  match lookupField fs k with
  | some (.str s) => .ok s
  | _ => .error ("Field required: " ++ k)

/-- Read a mandatory integer field of a JSON object. -/
def getIntField (fs : List (String × Json)) (k : String) : Except String Int :=
  match lookupField fs k with
  | some (.num n) => .ok n
  | _ => .error ("Field required: " ++ k)

/-- Pydantic validation of a ProtocolEnum from its wire value. -/
def parseProtocol (s : String) : Except String ProtocolEnum :=
  if s = "s3" then .ok .S3
  else if s = "nas" then .ok .NAS
  else if s = "local" then .ok .LOCAL
  else .error "Input should be s3, nas or local"

/-- Pydantic validation of a KnowledgeSourceEnum from its wire value. -/
def parseKnowledgeSource (s : String) : Except String KnowledgeSourceEnum :=
  if s = "telegram" then .ok .TELEGRAM
  else if s = "twitter" then .ok .TWITTER
  else if s = "augmented" then .ok .AUGMENTED
  else if s = "sentinel" then .ok .SENTINEL
  else if s = "user" then .ok .USER
  else .error "Input should be telegram, twitter, augmented, sentinel or user"

/-- LFN.to_json (models.py lines 87-91): model_dump_json, serialising the
five fields in declaration order, enums by their wire values. -/
def LFN.to_json (l : LFN) : Json :=
  .obj [("protocol", .str l.protocol.value),
        ("tracer_id", .str l.tracer_id),
        ("job_id", .num l.job_id),
        ("source", .str l.source.value),
        ("relative_path", .str l.relative_path)]

/-- LFN.from_json (models.py lines 96-101): model_validate_json, which
re-runs the field validators, hence takes an entropy seed. -/
def LFN.from_json (seed : String) (j : Json) : Except String LFN :=
  match j with
  | .obj fs => do
    let pv ← getStrField fs "protocol"
    let p ← parseProtocol pv
    let t ← getStrField fs "tracer_id"
    let jid ← getIntField fs "job_id"
    let sv ← getStrField fs "source"
    let src ← parseKnowledgeSource sv
    let rp ← getStrField fs "relative_path"
    pure (LFN.validate seed p t jid src rp)
  | _ => .error "Input should be an object"

/-- The ResearchContext entity (models.py lines 215-227), with its
BaseSoftDeleteKernelPlancksterModel fields inlined; datetimes are opaque
integers. -/
structure ResearchContext where
  created_at : Int
  updated_at : Int
  deleted : Bool
  deleted_at : Option Int
  id : Int
  title : String
  description : String
deriving DecidableEq

/-- The SourceData entity (models.py lines 165-188), with its soft-delete
base fields inlined.  The status field is required and has no default. -/
structure SourceData where
  created_at : Int
  updated_at : Int
  deleted : Bool
  deleted_at : Option Int
  id : Int
  name : String
  type : String
  lfn : LFN
  status : SourceDataStatusEnum
deriving DecidableEq

/-! ## Python exceptions -/

/-- The exceptions the embedded code can raise. -/
inductive PyError where
  | valueError : String → PyError
  | attributeError : String → PyError
  | unboundLocalError : String → PyError
  | validationError : String → PyError
deriving DecidableEq

/-! ## ASCII case mapping (Python str.lower / str.upper / str.capitalize) -/

/-- Embeds Python str.lower on one ASCII character. -/
def pyCharLower (c : Char) : Char :=
  match c with
  | 'A' => 'a' | 'B' => 'b' | 'C' => 'c' | 'D' => 'd' | 'E' => 'e'
  | 'F' => 'f' | 'G' => 'g' | 'H' => 'h' | 'I' => 'i' | 'J' => 'j'
  | 'K' => 'k' | 'L' => 'l' | 'M' => 'm' | 'N' => 'n' | 'O' => 'o'
  | 'P' => 'p' | 'Q' => 'q' | 'R' => 'r' | 'S' => 's' | 'T' => 't'
  | 'U' => 'u' | 'V' => 'v' | 'W' => 'w' | 'X' => 'x' | 'Y' => 'y'
  | 'Z' => 'z'
  | c => c

/-- Embeds Python str.upper on one ASCII character. -/
def pyCharUpper (c : Char) : Char :=
  match c with
  | 'a' => 'A' | 'b' => 'B' | 'c' => 'C' | 'd' => 'D' | 'e' => 'E'
  | 'f' => 'F' | 'g' => 'G' | 'h' => 'H' | 'i' => 'I' | 'j' => 'J'
  | 'k' => 'K' | 'l' => 'L' | 'm' => 'M' | 'n' => 'N' | 'o' => 'O'
  | 'p' => 'P' | 'q' => 'Q' | 'r' => 'R' | 's' => 'S' | 't' => 'T'
  | 'u' => 'U' | 'v' => 'V' | 'w' => 'W' | 'x' => 'X' | 'y' => 'Y'
  | 'z' => 'Z'
  | c => c

/-- Embeds Python str.lower. -/
def pyLower (s : String) : String := String.mk (s.data.map pyCharLower)

/-- Embeds Python str.upper. -/
def pyUpper (s : String) : String := String.mk (s.data.map pyCharUpper)

/-- Embeds Python str.capitalize: first character upper-cased, the rest
lower-cased. -/
def pyCapitalize (s : String) : String :=
  match s.data with
  | [] => ""
  | c :: t => String.mk (pyCharUpper c :: t.map pyCharLower)

/-! ## The envelope protocol (dto.py) -/

/-- A Python class object as the factory sees it: its own dunder name and
the dunder name of its metaclass.  Every pydantic model class has the
pydantic metaclass, whose dunder name is ModelMetaclass. -/
structure PyClass where
  name : String
  metaclass : String
deriving DecidableEq

/-- The ResearchContext class object. -/
def ResearchContextClass : PyClass := ⟨"ResearchContext", "ModelMetaclass"⟩

/-- The SourceData class object. -/
def SourceDataClass : PyClass := ⟨"SourceData", "ModelMetaclass"⟩

/-- The MessageResponse class object, as named in the import list of
sqla_message_repository.py (models.py itself defines no class of this
name; the repository module refers to it anyway). -/
def MessageResponseClass : PyClass := ⟨"MessageResponse", "ModelMetaclass"⟩

/-- BaseDTO (dto.py lines 10-33): the Result envelope. -/
structure BaseDTO (α : Type) where
  status : Bool
  errorCode : Option Int := none
  errorMessage : Option String := none
  errorName : Option String := none
  errorType : Option String := none
  data : Option α := none
deriving DecidableEq

/-- generate_error_dto_and_message (dto.py lines 39-119).

Control flow of the source, line by line:
  line 64: errorCode outside range(-3, 0) raises ValueError;
  line 67: a non-None attribute whose lower() is not id or sid raises ValueError;
  line 70: entity_name is entity.__class__.__name__, the metaclass name,
           because the callers pass the class itself;
  line 74: the condition (attribute is not None and attribute.lower() is "id"
           or "sid") is always truthy, since it parses as
           (... and ...) or "sid"; hence line 75 always runs and a None
           attribute raises AttributeError there, before any of the
           per-code None checks;
  line 75: attribute_name = attribute.upper();
  lines 80-98: the -1 and -2 branches bind message, name and type;
  lines 100-109: the -3 branch binds message, then errorName and errorType
           (not name and type), so line 112 reads the never-bound local
           name and raises UnboundLocalError. -/
def generate_error_dto_and_message (α : Type) (entity : PyClass) (errorCode : Int)
    (attr : Option String) (attribute_value : Option String)
    (missing_data : Option String) : Except PyError (BaseDTO α) :=
  if errorCode = -1 ∨ errorCode = -2 ∨ errorCode = -3 then
    match attr with
    | none => .error (.attributeError "NoneType object has no attribute upper")
    | some a =>
      if pyLower a = "id" ∨ pyLower a = "sid" then
        let attribute_name := pyUpper a
        let entity_name := entity.metaclass
        if errorCode = -1 then
          .ok { status := false, errorCode := some errorCode,
                errorMessage := some (entity_name ++ " " ++ (pyUpper attribute_name ++ " cannot be None")),
                errorName := some (entity_name ++ " " ++ (pyUpper attribute_name ++ " not provided")),
                errorType := some (entity_name ++ (pyCapitalize attribute_name ++ "NotProvided")),
                data := none }
        else if errorCode = -2 then
          match attribute_value with
          | none => .error (.valueError ("Attribute value cannot be None for error code " ++ toString errorCode))
          | some av =>
            .ok { status := false, errorCode := some errorCode,
                  errorMessage := some (entity_name ++ " " ++ ("with " ++ attribute_name ++ " " ++ av ++ " not found in the database")),
                  errorName := some (entity_name ++ " " ++ "not found"),
                  errorType := some (entity_name ++ "NotFound"),
                  data := none }
        else
          match missing_data with
          | none => .error (.valueError ("Missing data cannot be None for error code " ++ toString errorCode))
          | some _ => .error (.unboundLocalError "name")
      else .error (.valueError ("Attribute " ++ a ++ " is not valid"))
  else .error (.valueError ("Error code " ++ toString errorCode ++ " is not valid"))

/-! ## Persistence rows and the repositories -/

/-- Modelled from the spec: the persistence collaborator rows
(src/lib/infrastructure/repository/sqla/models.py is not among the given
sources).  A citation row carries the id of the source data it references,
the only field the message repository reads. -/
structure SQLACitation where
  id : Int
  source_data_id : Int
deriving DecidableEq

/-- Modelled from the spec: the message-response row; the repository reads
its id and its citations relation. -/
structure SQLAMessageResponse where
  id : Int
  citations : List SQLACitation
deriving DecidableEq

/-- Modelled from the spec: the source-data row, with exactly the fields
the message repository reads when assembling the domain entity. -/
structure SQLASourceData where
  created_at : Int
  updated_at : Int
  deleted : Bool
  deleted_at : Option Int
  id : Int
  name : String
  type : String
  lfn : LFN
  protocol : ProtocolEnum
deriving DecidableEq

/-- Modelled from the spec: the research-context row; the repository reads
it whole and hands it to the converter. -/
structure SQLAResearchContext where
  created_at : Int
  updated_at : Int
  deleted : Bool
  deleted_at : Option Int
  id : Int
  title : String
  description : String
deriving DecidableEq

/-- Modelled from the spec: convert_sqla_research_context_to_core_research_context
(sqla/utils.py is not among the given sources); section 4.3 step 4 of the
spec: map persistence rows into domain entities fieldwise. -/
def convert_sqla_research_context_to_core_research_context
    (r : SQLAResearchContext) : ResearchContext :=
  ⟨r.created_at, r.updated_at, r.deleted, r.deleted_at, r.id, r.title, r.description⟩

/-- GetResearchContextDTO (research_context_repository_dto.py). -/
abbrev GetResearchContextDTO := BaseDTO ResearchContext

/-- ListMessageSourcesDTO (message_repository_dto.py). -/
abbrev ListMessageSourcesDTO := BaseDTO (List SourceData)

/-- get_research_context (sqla_research_context_repository.py lines 25-51):
a primary-key lookup; an absent row produces a hand-written error DTO with
errorCode -1 and errorName ResearchContextNotFound. -/
def get_research_context (store : List SQLAResearchContext)
    (research_context_id : Int) : GetResearchContextDTO :=
  match store.find? (fun r => r.id == research_context_id) with
  | none =>
    { status := false, errorCode := some (-1),
      errorMessage := some ("Research context " ++ toString research_context_id ++ " not found."),
      errorName := some "ResearchContextNotFound",
      errorType := some "ResearchContextNotFound",
      data := none }
  | some r =>
    { status := true,
      data := some (convert_sqla_research_context_to_core_research_context r) }

/-- Pydantic construction of SourceData: every declared field is required
(none has a default), so a missing field raises a ValidationError; extra
keyword arguments are ignored under the default model configuration. -/
def SourceData.model_validate (created_at updated_at : Option Int)
    (deleted : Option Bool) (deleted_at : Option (Option Int)) (id : Option Int)
    (name type_arg : Option String) (lfn : Option LFN)
    (status : Option SourceDataStatusEnum) : Except PyError SourceData :=
  match created_at, updated_at, deleted, deleted_at, id, name, type_arg, lfn, status with
  | some ca, some ua, some d, some da, some i, some n, some t, some l, some st =>
    .ok ⟨ca, ua, d, da, i, n, t, l, st⟩
  | _, _, _, _, _, _, _, _, _ =>
    .error (.validationError "validation error for SourceData: Field required")

/-- The persistence store the message repository queries. -/
structure MessageStore where
  messages : List SQLAMessageResponse
  source_data : List SQLASourceData

/-- The citation loop of list_message_sources (sqla_message_repository.py
lines 50-79): each citation's source data is looked up; an absent row asks
the factory for a NotFound envelope for SourceData and returns it; a
present row is passed to the SourceData constructor with keywords
created_at, updated_at, deleted, deleted_at, id, name, type, lfn and
protocol, and no status keyword (lines 65-75), so the constructor call
raises a ValidationError. -/
def list_message_sources_loop (store : MessageStore) :
    List SQLACitation → List SourceData → Except PyError ListMessageSourcesDTO
  | [], sources_list => .ok { status := true, data := some sources_list }
  | citation :: rest, sources_list =>
    match store.source_data.find? (fun s => s.id == citation.source_data_id) with
    | none =>
      generate_error_dto_and_message (List SourceData) SourceDataClass (-2)
        (some "ID") (some (toString citation.source_data_id)) none
    | some sd =>
      match SourceData.model_validate (some sd.created_at) (some sd.updated_at)
        (some sd.deleted) (some sd.deleted_at) (some sd.id) (some sd.name)
        (some sd.type) (some sd.lfn) none with
      | .error e => .error e
      | .ok source_core => list_message_sources_loop store rest (sources_list ++ [source_core])

/-- list_message_sources (sqla_message_repository.py lines 18-79): a None
message id asks the factory for a MissingAttribute envelope; an absent
message asks it for a NotFound envelope; otherwise the citations are
processed in order by the loop above. -/
def list_message_sources (store : MessageStore) (message_id : Option Int) :
    Except PyError ListMessageSourcesDTO :=
  match message_id with
  | none =>
    generate_error_dto_and_message (List SourceData) MessageResponseClass (-1)
      (some "ID") none none
  | some mid =>
    match store.messages.find? (fun m => m.id == mid) with
    | none =>
      generate_error_dto_and_message (List SourceData) MessageResponseClass (-2)
        (some "ID") (some (toString mid)) none
    | some sqla_message => list_message_sources_loop store sqla_message.citations []

/-! ## Concrete inputs used by the settled claims -/

/-- A fixed 32-hex-digit seed standing for one uuid4 draw. -/
def seed0 : String := "00000000000000000000000000000000"

/-- A canonical-form LFN whose relative_path carries the marker. -/
def lfn0 : LFN :=
  ⟨.S3, "tracer", 7, .USER, "doc-00000000000000000000000000000000-sdamarker.pdf"⟩

/-- A source-data row whose lfn is already canonical. -/
def sqlaSourceData1 : SQLASourceData :=
  ⟨0, 0, false, none, 1, "doc", "pdf", lfn0, .S3⟩

/-- Store for claim C2: message 1 has one citation referencing source data
row 1, which is present. -/
def storeC2 : MessageStore :=
  { messages := [⟨1, [⟨1, 1⟩]⟩], source_data := [sqlaSourceData1] }

/-- Store for claim C7: message 1 has two citations; the first references
the present row 1, the second references the absent row 2. -/
def storeC7 : MessageStore :=
  { messages := [⟨1, [⟨1, 1⟩, ⟨2, 2⟩]⟩], source_data := [sqlaSourceData1] }

/-- Companion store for claim C7: message 1 has a single citation whose
referenced source data row 2 is absent. -/
def storeC7b : MessageStore :=
  { messages := [⟨1, [⟨1, 2⟩]⟩], source_data := [sqlaSourceData1] }

/-! ## Helper lemmas -/

theorem mk_data_eq (s : String) : String.mk s.data = s := rfl

theorem isPrefixOf_append_self (m ys : List Char) : m.isPrefixOf (m ++ ys) = true := by
  induction m with
  | nil => simp
  | cons a t ih => simp [List.isPrefixOf, ih]

theorem containsSub_head (m s : List Char) (h : m.isPrefixOf s = true) :
    containsSub m s = true := by
  cases s with
  | nil => exact h
  | cons x t => simp [containsSub, h]

theorem containsSub_cons (m : List Char) (x : Char) (t : List Char)
    (h : containsSub m t = true) : containsSub m (x :: t) = true := by
  simp [containsSub, h]

theorem containsSub_append_right (m xs ys : List Char) (h : containsSub m ys = true) :
    containsSub m (xs ++ ys) = true := by
  induction xs with
  | nil => simpa using h
  | cons x t ih => exact containsSub_cons m x (t ++ ys) ih

theorem canonicalizeList_of_contains (seed s : List Char)
    (h : containsSub markerL s = true) : canonicalizeList seed s = s := by
  unfold canonicalizeList
  simp [h]

theorem marker_in_canonical (seed v : List Char) :
    containsSub markerL (canonicalizeList seed v) = true := by
  unfold canonicalizeList
  cases hb : containsSub markerL v with
  | true => simp [hb]
  | false =>
    simp only [hb, Bool.false_eq_true, if_false]
    apply containsSub_append_right
    apply containsSub_cons
    apply containsSub_append_right
    apply containsSub_cons
    exact containsSub_head _ _ (isPrefixOf_append_self _ _)

theorem isPrefixOf_nil_right (m : List Char) (hm : m ≠ []) : m.isPrefixOf ([] : List Char) = false := by
  cases m with
  | nil => exact absurd rfl hm
  | cons a t => rfl

theorem isPrefixOf_mem (m : List Char) : ∀ (t : List Char), m.isPrefixOf t = true →
    ∀ a ∈ m, a ∈ t := by
  induction m with
  | nil => intro t _ a ha; exact absurd ha (List.not_mem_nil a)
  | cons b m' ih =>
    intro t h a ha
    cases t with
    | nil => simp [List.isPrefixOf] at h
    | cons c t' =>
      simp only [List.isPrefixOf, Bool.and_eq_true, beq_iff_eq] at h
      obtain ⟨rfl, h'⟩ := h
      rcases List.mem_cons.mp ha with rfl | ha'
      · exact List.mem_cons_self _ _
      · exact List.mem_cons_of_mem _ (ih t' h' a ha')

theorem isPrefixOf_append_sep (m : List Char) : ∀ (zs ys : List Char) (c : Char),
    c ∉ m → m.isPrefixOf (zs ++ c :: ys) = m.isPrefixOf zs := by
  induction m with
  | nil => intro zs ys c _; simp
  | cons a m' ih =>
    intro zs ys c hc
    cases zs with
    | nil =>
      have hac : (a == c) = false := by
        simp only [beq_eq_false_iff_ne]
        intro hEq
        exact hc (by rw [← hEq]; exact List.mem_cons_self a m')
      simp [List.isPrefixOf, hac]
    | cons z zs' =>
      simp only [List.cons_append, List.isPrefixOf, List.append_eq]
      rw [ih zs' ys c (fun hm => hc (List.mem_cons_of_mem _ hm))]

theorem countOcc_append_sep (m : List Char) : ∀ (xs ys : List Char) (c : Char),
    m ≠ [] → c ∉ m → countOcc m (xs ++ c :: ys) = countOcc m xs + countOcc m ys := by
  intro xs
  induction xs with
  | nil =>
    intro ys c hm hc
    have h2 := isPrefixOf_append_sep m [] ys c hc
    simp only [List.nil_append] at h2
    simp [countOcc, h2, isPrefixOf_nil_right m hm]
  | cons x xs' ih =>
    intro ys c hm hc
    have h2 := isPrefixOf_append_sep m (x :: xs') ys c hc
    simp only [List.cons_append] at h2 ⊢
    simp only [countOcc, h2, ih ys c hm hc]
    omega

theorem countOcc_eq_zero_of_not_mem (m : List Char) (a : Char) (ham : a ∈ m) :
    ∀ s : List Char, a ∉ s → countOcc m s = 0 := by
  intro s
  induction s with
  | nil =>
    intro _
    cases m with
    | nil => exact absurd ham (List.not_mem_nil a)
    | cons b m' => simp [countOcc, List.isPrefixOf]
  | cons x t ih =>
    intro has
    have hx : m.isPrefixOf (x :: t) = false := by
      cases hpre : m.isPrefixOf (x :: t) with
      | false => rfl
      | true => exact absurd (isPrefixOf_mem m _ hpre a ham) has
    have has' : a ∉ t := fun h => has (List.mem_cons_of_mem _ h)
    simp [countOcc, hx, ih has']

theorem pysplit_ne_nil (c : Char) (s : List Char) : pysplit c s ≠ [] := by
  cases s with
  | nil => simp [pysplit]
  | cons x t =>
    simp only [pysplit]
    split
    · simp
    · split <;> simp

theorem mem_of_mem_pysplit (c : Char) : ∀ (s l : List Char),
    l ∈ pysplit c s → ∀ a ∈ l, a ∈ s := by
  intro s
  induction s with
  | nil =>
    intro l hl a ha
    simp [pysplit] at hl
    subst hl
    exact absurd ha (List.not_mem_nil a)
  | cons x t ih =>
    intro l hl a ha
    simp only [pysplit] at hl
    by_cases hx : x = c
    · rw [if_pos hx] at hl
      rcases List.mem_cons.mp hl with rfl | hl'
      · exact absurd ha (List.not_mem_nil a)
      · exact List.mem_cons_of_mem _ (ih l hl' a ha)
    · rw [if_neg hx] at hl
      cases hsp : pysplit c t with
      | nil => exact absurd hsp (pysplit_ne_nil c t)
      | cons h rt =>
        rw [hsp] at hl
        rcases List.mem_cons.mp hl with rfl | hl'
        · rcases List.mem_cons.mp ha with rfl | ha'
          · exact List.mem_cons_self _ _
          · have hh : h ∈ pysplit c t := by rw [hsp]; exact List.mem_cons_self _ _
            exact List.mem_cons_of_mem _ (ih h hh a ha')
        · have hl2 : l ∈ pysplit c t := by rw [hsp]; exact List.mem_cons_of_mem _ hl'
          exact List.mem_cons_of_mem _ (ih l hl2 a ha)

theorem headD_mem_cons {α : Type} (L : List α) (d : α) : L.headD d ∈ d :: L := by
  cases L with
  | nil => exact List.mem_cons_self _ _
  | cons x t => exact List.mem_cons_of_mem _ (List.mem_cons_self _ _)

theorem first_dot_segment_sub (s : List Char) : ∀ a ∈ first_dot_segment s, a ∈ s := by
  intro a ha
  unfold first_dot_segment at ha
  rcases List.mem_cons.mp (headD_mem_cons (pysplit '.' s) []) with h | h
  · rw [h] at ha; exact absurd ha (List.not_mem_nil a)
  · exact mem_of_mem_pysplit '.' s _ h a ha

theorem last_dot_segment_sub (s : List Char) : ∀ a ∈ last_dot_segment s, a ∈ s := by
  intro a ha
  unfold last_dot_segment at ha
  rcases List.mem_cons.mp (List.getLastD_mem_cons (pysplit '.' s) []) with h | h
  · rw [h] at ha; exact absurd ha (List.not_mem_nil a)
  · exact mem_of_mem_pysplit '.' s _ h a ha

theorem sanitized_allowed (s : List Char) : ∀ a ∈ sanitized s, allowedChar a = true :=
  fun _ ha => List.of_mem_filter ha

/-! ## Settled claims -/

/-- C1: the spec claims that get_research_context on an id with no matching
row returns an error Result with errorCode -2 (the fixed not-found wire
code) and an errorName identifying the research context as not found.  The
code instead hard-codes errorCode -1 (the missing-attribute code, by the
taxonomy of dto.py) with errorName ResearchContextNotFound; evaluated here
at id 999 against the empty store. -/
theorem C1_get_research_context_absent_row :
    (get_research_context [] 999).status = false ∧
    (get_research_context [] 999).errorCode = some (-1) ∧
    (get_research_context [] 999).errorCode ≠ some (-2) ∧
    (get_research_context [] 999).errorName = some "ResearchContextNotFound" :=
  ⟨rfl, rfl, by decide, rfl⟩

/-- C2: the spec claims that list_message_sources on a message whose
citations all reference present source data returns a success Result with
the assembled SourceData entities.  The code instead raises a pydantic
ValidationError while assembling the first SourceData, because the
constructor call at sqla_message_repository.py lines 65-75 passes no
status keyword although SourceData.status is required; evaluated here on a
store holding message 1 with one citation whose source data row is
present. -/
theorem C2_list_message_sources_raises_on_assembly :
    list_message_sources storeC2 (some 1) =
      Except.error (.validationError "validation error for SourceData: Field required") :=
  rfl

/-- C3: the spec claims that the error-envelope factory, called with the
MissingDependentData kind (errorCode -3) and complete context, returns a
populated error Result and does not abort.  The code instead raises
UnboundLocalError: the -3 branch of dto.py binds errorName and errorType
(lines 108-109) instead of name and type, so line 112 reads the never
assigned local variable name; evaluated here at a complete -3 call. -/
theorem C3_missing_dependent_data_envelope_raises :
    generate_error_dto_and_message (List SourceData) SourceDataClass (-3)
        (some "id") (some "42") (some "conversations") =
      Except.error (.unboundLocalError "name") :=
  rfl

/-- C4: the spec claims errorMessage is composed from the passed entity
type name (ResearchContext with ID 42 not found in the database).  The
code computes entity.__class__.__name__ on the class object, which is the
name of the pydantic metaclass, ModelMetaclass, for every entity, so the
composed errorMessage, errorName and errorType never mention the entity;
evaluated here for NotFound on ResearchContext with ID 42. -/
theorem C4_error_message_uses_metaclass_name :
    (generate_error_dto_and_message ResearchContext ResearchContextClass (-2)
        (some "id") (some "42") none =
      Except.ok { status := false, errorCode := some (-2),
                  errorMessage := some "ModelMetaclass with ID 42 not found in the database",
                  errorName := some "ModelMetaclass not found",
                  errorType := some "ModelMetaclassNotFound", data := none }) ∧
    "ModelMetaclass with ID 42 not found in the database" ≠
      "ResearchContext with ID 42 not found in the database" :=
  ⟨rfl, by decide⟩

/-- C7: the spec claims that an absent source data row among a message's
citations always yields a single NotFound error Result (errorCode -2) for
SourceData.  That holds only when no present citation precedes the absent
one: storeC7 has message 1 with a present first citation and an absent
second one, and the code raises a ValidationError while assembling the
first SourceData (the missing status keyword) before ever reaching the
absent row; storeC7b, whose single citation references the absent row,
shows the intended -2 abort path working.  No partially filled list is
ever returned in either case. -/
theorem C7_dependent_lookup_abort :
    list_message_sources storeC7 (some 1) =
      Except.error (.validationError "validation error for SourceData: Field required") ∧
    list_message_sources storeC7b (some 1) =
      Except.ok { status := false, errorCode := some (-2),
                  errorMessage := some "ModelMetaclass with ID 2 not found in the database",
                  errorName := some "ModelMetaclass not found",
                  errorType := some "ModelMetaclassNotFound", data := none } :=
  ⟨rfl, rfl⟩

/-- C8: canonicalize is idempotent for every input string and every pair of
entropy draws, and any input already containing the marker token is
returned unchanged. -/
theorem C8_canonicalize_idempotent (seed1 seed2 p : String) :
    relative_path_must_be_alphanumberic_underscores_backslashes seed2
        (relative_path_must_be_alphanumberic_underscores_backslashes seed1 p) =
      relative_path_must_be_alphanumberic_underscores_backslashes seed1 p ∧
    (containsSub markerL p.data = true →
      relative_path_must_be_alphanumberic_underscores_backslashes seed1 p = p) := by
  constructor
  · show String.mk (canonicalizeList seed2.data (canonicalizeList seed1.data p.data)) =
      String.mk (canonicalizeList seed1.data p.data)
    exact congrArg String.mk (canonicalizeList_of_contains _ _ (marker_in_canonical _ _))
  · intro h
    show String.mk (canonicalizeList seed1.data p.data) = p
    rw [canonicalizeList_of_contains _ _ h]

/-- Witness for C8 at a concrete marker-bearing path. -/
theorem C8_canonicalize_idempotent_witness :
    containsSub markerL ("a-sdamarker.txt").data = true ∧
    relative_path_must_be_alphanumberic_underscores_backslashes seed0 "a-sdamarker.txt" =
      "a-sdamarker.txt" :=
  ⟨by decide, (C8_canonicalize_idempotent seed0 seed0 "a-sdamarker.txt").2 (by decide)⟩

theorem from_json_to_json (seed : String) (x : LFN) :
    LFN.from_json seed (LFN.to_json x) =
      Except.ok (LFN.mk x.protocol x.tracer_id x.job_id x.source
        (relative_path_must_be_alphanumberic_underscores_backslashes seed x.relative_path)) := by
  cases x with
  | mk pr t j s rp => cases pr <;> cases s <;> rfl

/-- C9: serialisation of a valid LFN (one whose relative_path carries the
marker token, as every validated LFN does) round-trips exactly:
deserialisation re-runs the validator, which returns a marker-bearing path
unchanged, so all five fields are restored. -/
theorem C9_lfn_round_trip (seed : String) (x : LFN)
    (h : containsSub markerL x.relative_path.data = true) :
    LFN.from_json seed (LFN.to_json x) = Except.ok x := by
  rw [from_json_to_json]
  have hrp : relative_path_must_be_alphanumberic_underscores_backslashes seed
      x.relative_path = x.relative_path := by
    show String.mk (canonicalizeList seed.data x.relative_path.data) = x.relative_path
    rw [canonicalizeList_of_contains _ _ h]
  rw [hrp]

/-- Witness for C9 at a concrete canonical LFN. -/
theorem C9_lfn_round_trip_witness :
    containsSub markerL (lfn0.relative_path).data = true ∧
    LFN.from_json seed0 (LFN.to_json lfn0) = Except.ok lfn0 :=
  ⟨by decide, C9_lfn_round_trip seed0 lfn0 (by decide)⟩

/-- C5, counterexample: the claim quantifies over every string p, but an
input already containing the marker is returned unchanged, so at
p = "sdamarkersdamarker!" the output keeps a forbidden character and two
marker occurrences; and at p = "sda!marker" the sanitisation itself
creates the marker, so the output carries three occurrences. -/
theorem C5_counterexample :
    (relative_path_must_be_alphanumberic_underscores_backslashes seed0 "sdamarkersdamarker!" =
        "sdamarkersdamarker!" ∧
      (relative_path_must_be_alphanumberic_underscores_backslashes seed0
          "sdamarkersdamarker!").data.all allowedChar = false ∧
      countOcc markerL (relative_path_must_be_alphanumberic_underscores_backslashes seed0
          "sdamarkersdamarker!").data = 2) ∧
    countOcc markerL (relative_path_must_be_alphanumberic_underscores_backslashes seed0
        "sda!marker").data = 3 := by
  constructor
  · exact ⟨by decide, by decide, by decide⟩
  · decide

/-- C5, amended: for every entropy draw of the uuid shape and every string
p that does not already contain the marker token and whose sanitised
basename does not carry the marker in its first or last dot-segment,
every character of canonicalize(p) lies in the whitelist and the marker
token occurs exactly once. -/
theorem C5_whitelist_amended (seed p : String) (hseed : uuid_hex_seed seed)
    (hp : containsSub markerL p.data = false)
    (hn : countOcc markerL (first_dot_segment (sanitized p.data)) = 0)
    (he : countOcc markerL (last_dot_segment (sanitized p.data)) = 0) :
    (relative_path_must_be_alphanumberic_underscores_backslashes seed p).data.all
        allowedChar = true ∧
    countOcc markerL
        (relative_path_must_be_alphanumberic_underscores_backslashes seed p).data = 1 := by
  have hout : (relative_path_must_be_alphanumberic_underscores_backslashes seed p).data =
      first_dot_segment (sanitized p.data) ++ '-' :: (seed.data ++ '-' ::
        (markerL ++ '.' :: last_dot_segment (sanitized p.data))) := by
    show canonicalizeList seed.data p.data = _
    unfold canonicalizeList
    simp [hp]
  rw [hout]
  have hhex : ∀ y ∈ ("0123456789abcdef").data, allowedChar y = true := by decide
  constructor
  · rw [List.all_eq_true]
    intro x hx
    rcases List.mem_append.mp hx with h | h
    · exact sanitized_allowed p.data x (first_dot_segment_sub _ x h)
    · rcases List.mem_cons.mp h with rfl | h
      · decide
      · rcases List.mem_append.mp h with h | h
        · exact hhex x (hseed.2 x h)
        · rcases List.mem_cons.mp h with rfl | h
          · decide
          · rcases List.mem_append.mp h with h | h
            · exact (by decide : ∀ y ∈ markerL, allowedChar y = true) x h
            · rcases List.mem_cons.mp h with rfl | h
              · decide
              · exact sanitized_allowed p.data x (last_dot_segment_sub _ x h)
  · rw [countOcc_append_sep markerL _ _ '-' (by decide) (by decide)]
    rw [countOcc_append_sep markerL _ _ '-' (by decide) (by decide)]
    rw [countOcc_append_sep markerL _ _ '.' (by decide) (by decide)]
    have hseedocc : countOcc markerL seed.data = 0 := by
      apply countOcc_eq_zero_of_not_mem markerL 's' (by decide)
      intro hmem
      exact absurd (hseed.2 's' hmem) (by decide)
    rw [hn, he, hseedocc, (by decide : countOcc markerL markerL = 1)]

/-- Witness for the amended C5 at the spec's own scenario input. -/
theorem C5_whitelist_amended_witness :
    uuid_hex_seed seed0 ∧
    containsSub markerL ("report.pdf").data = false ∧
    countOcc markerL (first_dot_segment (sanitized ("report.pdf").data)) = 0 ∧
    countOcc markerL (last_dot_segment (sanitized ("report.pdf").data)) = 0 ∧
    ((relative_path_must_be_alphanumberic_underscores_backslashes seed0 "report.pdf").data.all
        allowedChar = true ∧
      countOcc markerL
        (relative_path_must_be_alphanumberic_underscores_backslashes seed0 "report.pdf").data = 1) :=
  ⟨by decide, by decide, by decide, by decide,
    C5_whitelist_amended seed0 "report.pdf" (by decide) (by decide) (by decide) (by decide)⟩

/-- C6: calling the envelope factory with an errorCode outside the three
known codes, or a non-allow-listed attribute name, or with the context a
code requires missing, always raises (ValueError or, for a None attribute,
AttributeError at the always-executed line 75) and never returns a DTO. -/
theorem C6_contract_violations_raise (α : Type) (entity : PyClass) (errorCode : Int)
    (attr attribute_value missing_data : Option String)
    (h : ¬(errorCode = -1 ∨ errorCode = -2 ∨ errorCode = -3)
        ∨ (∃ a, attr = some a ∧ ¬(pyLower a = "id" ∨ pyLower a = "sid"))
        ∨ ((errorCode = -1 ∨ errorCode = -2 ∨ errorCode = -3) ∧ attr = none)
        ∨ (errorCode = -2 ∧ attribute_value = none)
        ∨ (errorCode = -3 ∧ missing_data = none)) :
    ∃ e, generate_error_dto_and_message α entity errorCode attr attribute_value missing_data
        = Except.error e := by
  unfold generate_error_dto_and_message
  by_cases hec : errorCode = -1 ∨ errorCode = -2 ∨ errorCode = -3
  · rw [if_pos hec]
    cases attr with
    | none => exact ⟨_, rfl⟩
    | some a =>
      dsimp only
      by_cases hval : pyLower a = "id" ∨ pyLower a = "sid"
      · rw [if_pos hval]
        rcases h with h | h | h | h | h
        · exact absurd hec h
        · obtain ⟨b, hb, hbv⟩ := h
          injection hb with hab
          exact absurd (hab ▸ hval) hbv
        · obtain ⟨-, hnone⟩ := h
          exact absurd hnone (Option.some_ne_none a)
        · obtain ⟨rfl, rfl⟩ := h
          exact ⟨_, rfl⟩
        · obtain ⟨rfl, rfl⟩ := h
          exact ⟨_, rfl⟩
      · rw [if_neg hval]
        exact ⟨_, rfl⟩
  · rw [if_neg hec]
    exact ⟨_, rfl⟩

/-- Witness for C6 at the out-of-range errorCode 0. -/
theorem C6_contract_violations_raise_witness :
    (¬((0 : Int) = -1 ∨ (0 : Int) = -2 ∨ (0 : Int) = -3)) ∧
    ∃ e, generate_error_dto_and_message ResearchContext ResearchContextClass 0 none none none
        = Except.error e :=
  ⟨by decide,
    C6_contract_violations_raise ResearchContext ResearchContextClass 0 none none none
      (Or.inl (by decide))⟩

theorem pyCharLower_eq_i (c : Char) (h : pyCharLower c = 'i') : c = 'I' ∨ c = 'i' := by
  unfold pyCharLower at h
  split at h <;>
    first
      | exact absurd h (by decide)
      | exact Or.inl rfl
      | exact Or.inr h

theorem pyCharLower_eq_d (c : Char) (h : pyCharLower c = 'd') : c = 'D' ∨ c = 'd' := by
  unfold pyCharLower at h
  split at h <;>
    first
      | exact absurd h (by decide)
      | exact Or.inl rfl
      | exact Or.inr h

theorem pyCharLower_eq_s (c : Char) (h : pyCharLower c = 's') : c = 'S' ∨ c = 's' := by
  unfold pyCharLower at h
  split at h <;>
    first
      | exact absurd h (by decide)
      | exact Or.inl rfl
      | exact Or.inr h

theorem pyLower_eq_two (a : String) (x y : Char) (h : a.data.map pyCharLower = [x, y]) :
    ∃ c1 c2, a = String.mk [c1, c2] ∧ pyCharLower c1 = x ∧ pyCharLower c2 = y := by
  cases ha : a.data with
  | nil => rw [ha] at h; simp at h
  | cons c1 t =>
    rw [ha] at h
    cases t with
    | nil => simp at h
    | cons c2 t2 =>
      cases t2 with
      | nil =>
        simp only [List.map_cons, List.map_nil, List.cons.injEq, and_true] at h
        exact ⟨c1, c2, (mk_data_eq a).symm.trans (congrArg String.mk ha), h.1, h.2⟩
      | cons c3 t3 => simp at h

theorem pyLower_eq_three (a : String) (x y z : Char)
    (h : a.data.map pyCharLower = [x, y, z]) :
    ∃ c1 c2 c3, a = String.mk [c1, c2, c3] ∧
      pyCharLower c1 = x ∧ pyCharLower c2 = y ∧ pyCharLower c3 = z := by
  cases ha : a.data with
  | nil => rw [ha] at h; simp at h
  | cons c1 t =>
    rw [ha] at h
    cases t with
    | nil => simp at h
    | cons c2 t2 =>
      cases t2 with
      | nil => simp at h
      | cons c3 t3 =>
        cases t3 with
        | nil =>
          simp only [List.map_cons, List.map_nil, List.cons.injEq, and_true] at h
          exact ⟨c1, c2, c3, (mk_data_eq a).symm.trans (congrArg String.mk ha),
            h.1, h.2.1, h.2.2⟩
        | cons c4 t4 => simp at h

/-- C10: the factory accepts an attribute name in any letter case and
rejects exactly the names whose lower-casing is neither id nor sid; on
acceptance with the MissingAttribute code -1, the composed errorMessage
carries the attribute fully upper-cased, whatever case the caller used. -/
theorem C10_attribute_case_insensitive (entity : PyClass) (a : String) :
    ((pyLower a = "id" ∨ pyLower a = "sid") →
      ∃ dto : BaseDTO ResearchContext,
        generate_error_dto_and_message ResearchContext entity (-1) (some a) none none =
          Except.ok dto ∧
        dto.errorCode = some (-1) ∧
        dto.errorMessage = some (entity.metaclass ++ " " ++ (pyUpper a ++ " cannot be None"))) ∧
    (¬(pyLower a = "id" ∨ pyLower a = "sid") →
      generate_error_dto_and_message ResearchContext entity (-1) (some a) none none =
        Except.error (.valueError ("Attribute " ++ a ++ " is not valid"))) := by
  constructor
  · intro h
    rcases h with h | h
    · have hd : a.data.map pyCharLower = ['i', 'd'] := congrArg String.data h
      obtain ⟨c1, c2, rfl, h1, h2⟩ := pyLower_eq_two a 'i' 'd' hd
      rcases pyCharLower_eq_i c1 h1 with rfl | rfl <;>
        rcases pyCharLower_eq_d c2 h2 with rfl | rfl <;>
          exact ⟨_, rfl, rfl, rfl⟩
    · have hd : a.data.map pyCharLower = ['s', 'i', 'd'] := congrArg String.data h
      obtain ⟨c1, c2, c3, rfl, h1, h2, h3⟩ := pyLower_eq_three a 's' 'i' 'd' hd
      rcases pyCharLower_eq_s c1 h1 with rfl | rfl <;>
        rcases pyCharLower_eq_i c2 h2 with rfl | rfl <;>
          rcases pyCharLower_eq_d c3 h3 with rfl | rfl <;>
            exact ⟨_, rfl, rfl, rfl⟩
  · intro h
    unfold generate_error_dto_and_message
    rw [if_pos (by norm_num : (-1 : Int) = -1 ∨ (-1 : Int) = -2 ∨ (-1 : Int) = -3)]
    exact if_neg h

/-- Witness for C10 at the mixed-case attribute Sid. -/
theorem C10_attribute_case_insensitive_witness :
    pyLower "Sid" = "sid" ∧
    ∃ dto : BaseDTO ResearchContext,
      generate_error_dto_and_message ResearchContext ResearchContextClass (-1) (some "Sid")
          none none = Except.ok dto ∧
      dto.errorCode = some (-1) ∧
      dto.errorMessage = some (ResearchContextClass.metaclass ++ " " ++
        (pyUpper "Sid" ++ " cannot be None")) :=
  ⟨by decide,
    (C10_attribute_case_insensitive ResearchContextClass "Sid").1 (Or.inr (by decide))⟩

end KernelPlanckster
